/-
Verification of the `StructureLibrary` component of diffsims
(`diffsims/libraries/structure_library.py`) via a shallow embedding.

Modelling choices:

* A Python orientation-set is either a bare 3-tuple of angles (whose Python
  `len` is 3) or a list of 3-tuples (whose Python `len` is the list length).
  This is `OrientationSet` with `pyLen` giving the Python `len`.
* `raise ValueError(...)` is modelled with `Except LibError`: an exception
  aborts `__init__` before any attribute assignment, so a `LibError` result
  carries no partially-built object (atomicity of failure is intrinsic to
  the model).
* A Python `dict` is modelled as an association list with Python insertion
  semantics (`dictInsert`): assigning to an existing key overwrites its value
  in place, assigning to a fresh key appends it.
* `print` output of `get_library_size` is modelled as an explicit list of
  `OutputLine` values returned alongside the integer result.
* `StructureLibrary` is polymorphic in the identifier type `ι`, the opaque
  structure type `σ` and, where the code never inspects orientations, in the
  orientation-set type `ω`; size accounting is stated at `ω = OrientationSet`.
* The external collaborator `get_grid_streographic` is a parameter of
  `from_crystal_systems` (a black-box function, per its call site).
-/
import Mathlib

set_option linter.unusedVariables false

namespace Diffsims

/-- One orientation: a 3-tuple of Euler angles (rzxz convention, degrees).
The code never inspects the angle values, only counts tuples, so integer
angles suffice for the embedding. -/
structure Orientation where
  alpha : Int
  beta : Int
  gamma : Int
deriving DecidableEq, Repr

/-- One entry of `self.orientations`: either a bare 3-tuple of angles or a
list of 3-tuples (both occur in the code's intended inputs). -/
inductive OrientationSet where
  | flat (o : Orientation)
  | many (os : List Orientation)
deriving DecidableEq, Repr

/-- Python `len` of an orientation-set: a bare 3-tuple has `len` 3, a list
has its list length. -/
def pyLen : OrientationSet → Nat
  | .flat _ => 3
  | .many os => os.length

/-- The `ValueError`s raised by `StructureLibrary.__init__`, with the two
counts embedded in the message captured as structured data. -/
inductive LibError where
  | idStructMismatch (nIdentifiers nStructures : Nat)
  | idOriMismatch (nIdentifiers nOrientations : Nat)
deriving DecidableEq, Repr

/-- A Python `dict` as an insertion-ordered association list. -/
abbrev PyDict (κ β : Type) := List (κ × β)

/-- Python `d[k] = v`: overwrite in place when the key is present, append
otherwise. -/
def dictInsert [DecidableEq κ] (d : PyDict κ β) (k : κ) (v : β) : PyDict κ β :=
  if d.any (fun p => decide (p.1 = k)) then
    d.map (fun p => if p.1 = k then (k, v) else p)
  else
    d ++ [(k, v)]

/-- Python `d.get(k)`: the value stored at key `k`, if any. -/
def dictLookup [DecidableEq κ] (d : PyDict κ β) (k : κ) : Option β :=
  (d.find? (fun p => decide (p.1 = k))).map (fun p => p.2)

/-- The attributes set by a successful `StructureLibrary.__init__`. -/
structure StructureLibrary (ι σ ω : Type) where
  identifiers : List ι
  structures : List σ
  orientations : List ω
  struct_lib : PyDict ι (σ × ω)

/-- `StructureLibrary.__init__`: validate the two length equalities in
order, then store the three sequences verbatim and build `struct_lib` by
iterating `zip(identifiers, structures, orientations)` in order. -/
def StructureLibrary.init [DecidableEq ι] (identifiers : List ι)
    (structures : List σ) (orientations : List ω) :
    Except LibError (StructureLibrary ι σ ω) :=
  if identifiers.length ≠ structures.length then
    .error (.idStructMismatch identifiers.length structures.length)
  else if identifiers.length ≠ orientations.length then
    .error (.idOriMismatch identifiers.length orientations.length)
  else
    .ok { identifiers := identifiers
          structures := structures
          orientations := orientations
          struct_lib := (identifiers.zip (structures.zip orientations)).foldl
            (fun d p => dictInsert d p.1 p.2) [] }

/-- One line printed by `get_library_size`: a per-identifier line carries the
identifier (`none` if the index is out of range of `identifiers`) and the raw
`len(self.orientations[i])`; the final line carries the total. -/
inductive OutputLine (ι : Type) where
  | entry (identifier : Option ι) (rawLen : Nat)
  | total (size : Nat)
deriving Repr

/-- One iteration of the loop in `get_library_size`: add 1 when
`len(self.orientations[i]) == 1` and the raw length otherwise, and, when
`to_print` is set, emit the per-identifier line with the raw length. -/
def glsStep (lib : StructureLibrary ι σ OrientationSet) (to_print : Bool)
    (acc : Nat × List (OutputLine ι)) (i : Nat) : Nat × List (OutputLine ι) :=
  ((if pyLen (lib.orientations.getD i (OrientationSet.many [])) = 1 then acc.1 + 1
    else acc.1 + pyLen (lib.orientations.getD i (OrientationSet.many []))),
   if to_print then
     acc.2 ++ [OutputLine.entry lib.identifiers[i]?
       (pyLen (lib.orientations.getD i (OrientationSet.many [])))]
   else acc.2)

/-- `StructureLibrary.get_library_size`: loop over
`range(len(self.orientations))`, then, when `to_print` is set, print the
total; returns the accumulated size together with the printed lines. -/
def getLibrarySize (lib : StructureLibrary ι σ OrientationSet)
    (to_print : Bool) : Nat × List (OutputLine ι) :=
  let r := (List.range lib.orientations.length).foldl (glsStep lib to_print) (0, [])
  (r.1, if to_print then r.2 ++ [OutputLine.total r.1] else r.2)

/-- The contribution of position `i` to the size returned by
`get_library_size`. -/
def entryCount (lib : StructureLibrary ι σ OrientationSet) (i : Nat) : Nat :=
  if pyLen (lib.orientations.getD i (OrientationSet.many [])) = 1 then 1
  else pyLen (lib.orientations.getD i (OrientationSet.many []))

/-- Modelled from the spec: the branch-free size, "the plain sum of
`len(orientations[i])` over all positions `i`", used as the second
definition of the refinement claim about the vacuous `len == 1` branch. -/
def getLibrarySizePlain (lib : StructureLibrary ι σ OrientationSet) : Nat :=
  (lib.orientations.map pyLen).sum

/-- `StructureLibrary.from_orientation_lists`: pure pass-through to the
constructor. -/
def StructureLibrary.from_orientation_lists [DecidableEq ι]
    (identifiers : List ι) (structures : List σ) (orientations : List ω) :
    Except LibError (StructureLibrary ι σ ω) :=
  StructureLibrary.init identifiers structures orientations

/-- `StructureLibrary.from_crystal_systems`: build the orientation list by
appending `get_grid_streographic(system, resolution, equal)` for each system
in order, then delegate to the constructor. The external generator is a
parameter (a black-box collaborator). -/
def StructureLibrary.from_crystal_systems [DecidableEq ι]
    (get_grid_streographic : γ → ρ → String → ω)
    (identifiers : List ι) (structures : List σ) (systems : List γ)
    (resolution : ρ) (equal : String) :
    Except LibError (StructureLibrary ι σ ω) :=
  let orientations := systems.foldl
    (fun acc system => acc ++ [get_grid_streographic system resolution equal]) []
  StructureLibrary.init identifiers structures orientations

/-- The value attached to the last pair of `ps` whose key is `k`, if any:
the reference semantics of repeated Python dict assignment. -/
def lastFind [DecidableEq κ] : List (κ × β) → κ → Option β
  | [], _ => none
  | p :: ps, k =>
    match lastFind ps k with
    | some v => some v
    | none => if p.1 = k then some p.2 else none

/-! ### Association-list dictionary lemmas -/

theorem find?_map_upd_self [DecidableEq κ] (d : PyDict κ β) (a : κ) (b : β)
    (h : d.any (fun p => decide (p.1 = a)) = true) :
    (d.map (fun p => if p.1 = a then (a, b) else p)).find?
      (fun p => decide (p.1 = a)) = some (a, b) := by
  induction d with
  | nil => simp at h
  | cons p ps ih =>
    by_cases hp : p.1 = a
    · simp [List.find?, hp]
    · have h' : ps.any (fun p => decide (p.1 = a)) = true := by
        simpa [List.any_cons, hp] using h
      simpa [List.find?, hp] using ih h'

theorem find?_map_upd_other [DecidableEq κ] (d : PyDict κ β) (a k : κ) (b : β)
    (hk : k ≠ a) :
    (d.map (fun p => if p.1 = a then (a, b) else p)).find?
      (fun p => decide (p.1 = k))
      = d.find? (fun p => decide (p.1 = k)) := by
  induction d with
  | nil => rfl
  | cons p ps ih =>
    have hak : ¬ a = k := fun h => hk h.symm
    by_cases hpk : p.1 = k
    · have hpa : ¬ p.1 = a := fun h => hk (hpk ▸ h)
      rw [List.map_cons, if_neg hpa,
        List.find?_cons_of_pos _ (by simpa using hpk),
        List.find?_cons_of_pos _ (by simpa using hpk)]
    · have hneg : ¬ ((if p.1 = a then (a, b) else p).1 = k) := by
        by_cases hpa : p.1 = a <;> simp [hpa, hpk, hak]
      rw [List.map_cons,
        List.find?_cons_of_neg _ (by simpa using hneg),
        List.find?_cons_of_neg _ (by simpa using hpk)]
      exact ih

theorem find?_none_of_any_false [DecidableEq κ] (d : PyDict κ β) (a : κ)
    (h : d.any (fun p => decide (p.1 = a)) = false) :
    d.find? (fun p => decide (p.1 = a)) = none := by
  induction d with
  | nil => rfl
  | cons p ps ih =>
    simp only [List.any_cons, Bool.or_eq_false_iff] at h
    have hp : ¬ p.1 = a := by simpa using h.1
    simp [List.find?, hp, ih h.2]

theorem dictLookup_dictInsert [DecidableEq κ] (d : PyDict κ β) (a k : κ) (b : β) :
    dictLookup (dictInsert d a b) k
      = if a = k then some b else dictLookup d k := by
  unfold dictLookup dictInsert
  by_cases hany : d.any (fun p => decide (p.1 = a)) = true
  · rw [if_pos hany]
    by_cases hk : a = k
    · subst hk
      rw [find?_map_upd_self d a b hany, if_pos rfl]
      rfl
    · rw [find?_map_upd_other d a k b (fun h => hk h.symm), if_neg hk]
  · have hfalse : d.any (fun p => decide (p.1 = a)) = false := by
      rw [Bool.not_eq_true] at hany; exact hany
    rw [if_neg hany, List.find?_append]
    by_cases hk : a = k
    · subst hk
      rw [find?_none_of_any_false d a hfalse]
      simp [List.find?]
    · have : ([(a, b)].find? (fun p => decide (p.1 = k))) = none := by
        simp [List.find?, hk]
      simp [this, hk]

theorem dictLookup_foldl [DecidableEq κ] (ps : List (κ × β)) :
    ∀ (d : PyDict κ β) (k : κ),
      dictLookup (ps.foldl (fun d p => dictInsert d p.1 p.2) d) k
        = match lastFind ps k with
          | some v => some v
          | none => dictLookup d k := by
  induction ps with
  | nil => intro d k; rfl
  | cons p ps ih =>
    intro d k
    show dictLookup (ps.foldl _ (dictInsert d p.1 p.2)) k = _
    rw [ih]
    cases hf : lastFind ps k with
    | some v => simp [lastFind, hf]
    | none =>
      simp only [lastFind, hf, dictLookup_dictInsert]
      by_cases hp : p.1 = k <;> simp [hp]

theorem lastFind_eq_none [DecidableEq κ] (ps : List (κ × β)) (k : κ)
    (h : k ∉ ps.map Prod.fst) : lastFind ps k = none := by
  induction ps with
  | nil => rfl
  | cons p ps ih =>
    simp only [List.map_cons, List.mem_cons, not_or] at h
    have hp : ¬ p.1 = k := fun hh => h.1 hh.symm
    simp [lastFind, ih h.2, hp]

theorem lastFind_spec [DecidableEq κ] (ps : List (κ × β)) (k : κ)
    (h : k ∈ ps.map Prod.fst) :
    ∃ i, ∃ hi : i < ps.length,
      (ps.get ⟨i, hi⟩).1 = k ∧
      (∀ j, ∀ hj : j < ps.length, i < j → (ps.get ⟨j, hj⟩).1 ≠ k) ∧
      lastFind ps k = some (ps.get ⟨i, hi⟩).2 := by
  induction ps with
  | nil => simp at h
  | cons p ps ih =>
    by_cases hmem : k ∈ ps.map Prod.fst
    · obtain ⟨i, hi, hk, hlater, hfind⟩ := ih hmem
      refine ⟨i + 1, by simpa using Nat.succ_lt_succ hi, by simpa using hk, ?_, ?_⟩
      · intro j hj hij
        cases j with
        | zero => omega
        | succ j' =>
          have hj' : j' < ps.length := by simpa using hj
          simpa using hlater j' hj' (by omega)
      · simp [lastFind, hfind]
    · have hpk : p.1 = k := by
        simp only [List.map_cons, List.mem_cons] at h
        rcases h with h | h
        · exact h.symm
        · exact absurd h hmem
      refine ⟨0, by simp, by simpa using hpk, ?_, ?_⟩
      · intro j hj hij
        cases j with
        | zero => omega
        | succ j' =>
          have hj' : j' < ps.length := by simpa using hj
          have hget : (p :: ps).get ⟨j' + 1, hj⟩ = ps.get ⟨j', hj'⟩ := rfl
          rw [hget]
          intro hcon
          exact hmem (hcon ▸ List.mem_map_of_mem Prod.fst (ps.get_mem j' hj'))
      · simp [lastFind, lastFind_eq_none ps k hmem, hpk]

theorem keys_map_upd [DecidableEq κ] (d : PyDict κ β) (a : κ) (b : β) :
    (d.map (fun p => if p.1 = a then (a, b) else p)).map Prod.fst
      = d.map Prod.fst := by
  induction d with
  | nil => rfl
  | cons p ps ih =>
    by_cases hp : p.1 = a <;> simp [hp, ih]

theorem mem_keys_dictInsert [DecidableEq κ] (d : PyDict κ β) (a k : κ) (b : β) :
    k ∈ (dictInsert d a b).map Prod.fst ↔ k = a ∨ k ∈ d.map Prod.fst := by
  unfold dictInsert
  by_cases hany : d.any (fun p => decide (p.1 = a)) = true
  · rw [if_pos hany, keys_map_upd]
    have ha : a ∈ d.map Prod.fst := by
      rcases List.any_eq_true.mp hany with ⟨p, hp, hpa⟩
      exact (of_decide_eq_true hpa) ▸ List.mem_map_of_mem Prod.fst hp
    constructor
    · exact Or.inr
    · rintro (rfl | h)
      · exact ha
      · exact h
  · rw [if_neg hany]
    simp [or_comm]

theorem nodup_keys_dictInsert [DecidableEq κ] (d : PyDict κ β) (a : κ) (b : β)
    (h : (d.map Prod.fst).Nodup) :
    ((dictInsert d a b).map Prod.fst).Nodup := by
  unfold dictInsert
  by_cases hany : d.any (fun p => decide (p.1 = a)) = true
  · rw [if_pos hany, keys_map_upd]; exact h
  · rw [if_neg hany]
    have ha : a ∉ d.map Prod.fst := by
      intro hmem
      rcases List.mem_map.mp hmem with ⟨p, hp, hpa⟩
      exact hany (List.any_eq_true.mpr ⟨p, hp, decide_eq_true hpa⟩)
    simp [List.nodup_append, h, ha]

theorem nodup_keys_foldl [DecidableEq κ] (ps : List (κ × β)) :
    ∀ d : PyDict κ β, (d.map Prod.fst).Nodup →
      ((ps.foldl (fun d p => dictInsert d p.1 p.2) d).map Prod.fst).Nodup := by
  induction ps with
  | nil => intro d h; exact h
  | cons p ps ih => intro d h; exact ih _ (nodup_keys_dictInsert d p.1 p.2 h)

theorem mem_keys_foldl [DecidableEq κ] (ps : List (κ × β)) :
    ∀ (d : PyDict κ β) (k : κ),
      k ∈ ((ps.foldl (fun d p => dictInsert d p.1 p.2) d).map Prod.fst)
        ↔ k ∈ ps.map Prod.fst ∨ k ∈ d.map Prod.fst := by
  induction ps with
  | nil => intro d k; simp
  | cons p ps ih =>
    intro d k
    rw [List.foldl_cons, ih, mem_keys_dictInsert]
    simp only [List.map_cons, List.mem_cons]
    tauto

theorem length_keys_foldl [DecidableEq κ] (ps : List (κ × β)) :
    (ps.foldl (fun d p => dictInsert d p.1 p.2) []).length
      = (ps.map Prod.fst).toFinset.card := by
  have hnodup : ((ps.foldl (fun d p => dictInsert d p.1 p.2)
      ([] : PyDict κ β)).map Prod.fst).Nodup :=
    nodup_keys_foldl ps [] (by simp)
  have hset : ((ps.foldl (fun d p => dictInsert d p.1 p.2)
        ([] : PyDict κ β)).map Prod.fst).toFinset
      = (ps.map Prod.fst).toFinset := by
    ext k
    simp only [List.mem_toFinset]
    rw [mem_keys_foldl]
    simp
  calc (ps.foldl (fun d p => dictInsert d p.1 p.2) []).length
      = ((ps.foldl (fun d p => dictInsert d p.1 p.2)
          ([] : PyDict κ β)).map Prod.fst).length := by simp
    _ = ((ps.foldl (fun d p => dictInsert d p.1 p.2)
          ([] : PyDict κ β)).map Prod.fst).toFinset.card :=
        (List.toFinset_card_of_nodup hnodup).symm
    _ = (ps.map Prod.fst).toFinset.card := by rw [hset]

/-! ### Size-accounting lemmas -/

theorem glsStep_fst (lib : StructureLibrary ι σ OrientationSet) (tp : Bool)
    (acc : Nat × List (OutputLine ι)) (i : Nat) :
    (glsStep lib tp acc i).1 = acc.1 + entryCount lib i := by
  unfold glsStep entryCount
  by_cases h : pyLen (lib.orientations.getD i (OrientationSet.many [])) = 1
  · rw [if_pos h, if_pos h]
  · rw [if_neg h, if_neg h]

theorem foldl_glsStep_fst (lib : StructureLibrary ι σ OrientationSet)
    (tp : Bool) (l : List Nat) :
    ∀ acc : Nat × List (OutputLine ι),
      (l.foldl (glsStep lib tp) acc).1 = acc.1 + (l.map (entryCount lib)).sum := by
  induction l with
  | nil => intro acc; simp
  | cons i l ih =>
    intro acc
    rw [List.foldl_cons, ih, glsStep_fst]
    simp [Nat.add_assoc]

theorem getLibrarySize_fst (lib : StructureLibrary ι σ OrientationSet)
    (tp : Bool) :
    (getLibrarySize lib tp).1
      = ((List.range lib.orientations.length).map (entryCount lib)).sum := by
  unfold getLibrarySize
  simp [foldl_glsStep_fst]

theorem range_map_getD {α : Type} (g : α → Nat) (dflt : α) (l : List α) :
    (List.range l.length).map (fun i => g (l.getD i dflt)) = l.map g := by
  induction l with
  | nil => rfl
  | cons a l ih =>
    rw [List.length_cons, List.range_succ_eq_map, List.map_cons, List.map_map]
    have hcomp : ((fun i => g ((a :: l).getD i dflt)) ∘ Nat.succ)
        = fun i => g (l.getD i dflt) := by
      funext i
      simp [List.getD_cons_succ]
    rw [hcomp, ih]
    simp [List.getD_cons_zero]

theorem getLibrarySize_fst_eq_sum (lib : StructureLibrary ι σ OrientationSet)
    (tp : Bool) :
    (getLibrarySize lib tp).1
      = (lib.orientations.map (fun o => if pyLen o = 1 then 1 else pyLen o)).sum := by
  rw [getLibrarySize_fst]
  congr 1
  exact range_map_getD (fun o => if pyLen o = 1 then 1 else pyLen o)
    (OrientationSet.many []) lib.orientations

theorem foldl_append_singleton {α β : Type} (g : α → β) (l : List α) :
    ∀ acc : List β, l.foldl (fun acc s => acc ++ [g s]) acc = acc ++ l.map g := by
  induction l with
  | nil => intro acc; simp
  | cons a l ih =>
    intro acc
    rw [List.foldl_cons, ih]
    simp

/-! ### Generic constructor lemmas -/

theorem init_ok {ι σ ω : Type} [DecidableEq ι] (ids : List ι) (ss : List σ)
    (os : List ω) (h1 : ids.length = ss.length) (h2 : ids.length = os.length) :
    StructureLibrary.init ids ss os
      = Except.ok { identifiers := ids
                    structures := ss
                    orientations := os
                    struct_lib := (ids.zip (ss.zip os)).foldl
                      (fun d p => dictInsert d p.1 p.2) [] } := by
  unfold StructureLibrary.init
  rw [if_neg (fun hc => hc h1), if_neg (fun hc => hc h2)]

theorem get_zip3 {α β₁ β₂ : Type} (l₁ : List α) (l₂ : List β₁) (l₃ : List β₂)
    (i : Nat) (h : i < (l₁.zip (l₂.zip l₃)).length) (h₁ : i < l₁.length)
    (h₂ : i < l₂.length) (h₃ : i < l₃.length) :
    (l₁.zip (l₂.zip l₃)).get ⟨i, h⟩
      = (l₁.get ⟨i, h₁⟩, (l₂.get ⟨i, h₂⟩, l₃.get ⟨i, h₃⟩)) := by
  simp [List.get_eq_getElem, List.getElem_zip]

/-! ### The claims -/

/-- C1: for every triple of equal-length sequences, direct construction
succeeds, stores the three sequences verbatim (so their lengths agree), and
`struct_lib` has exactly `len(set(identifiers))` keys, each mapped to the
(structure, orientation-set) pair of the latest position carrying that
identifier. -/
theorem claim1_construction {ι σ ω : Type} [DecidableEq ι]
    (ids : List ι) (ss : List σ) (os : List ω)
    (h1 : ids.length = ss.length) (h2 : ids.length = os.length) :
    ∃ lib : StructureLibrary ι σ ω,
      StructureLibrary.init ids ss os = Except.ok lib
      ∧ lib.identifiers = ids ∧ lib.structures = ss ∧ lib.orientations = os
      ∧ lib.identifiers.length = lib.structures.length
      ∧ lib.identifiers.length = lib.orientations.length
      ∧ lib.struct_lib.length = ids.toFinset.card
      ∧ ∀ k ∈ ids, ∃ i, ∃ hi : i < ids.length,
          ids.get ⟨i, hi⟩ = k
          ∧ (∀ j, ∀ hj : j < ids.length, i < j → ids.get ⟨j, hj⟩ ≠ k)
          ∧ ∃ s ∈ ss[i]?, ∃ o ∈ os[i]?,
              dictLookup lib.struct_lib k = some (s, o) := by
  have hzlen : (ss.zip os).length = ids.length := by
    rw [List.length_zip]; omega
  have hplen : (ids.zip (ss.zip os)).length = ids.length := by
    rw [List.length_zip]; omega
  have hfst : (ids.zip (ss.zip os)).map Prod.fst = ids :=
    List.map_fst_zip ids (ss.zip os) (by rw [hzlen])
  refine ⟨_, init_ok ids ss os h1 h2, rfl, rfl, rfl, h1, h2, ?_, ?_⟩
  · show ((ids.zip (ss.zip os)).foldl (fun d p => dictInsert d p.1 p.2) []).length = _
    rw [length_keys_foldl, hfst]
  · intro k hk
    have hk' : k ∈ (ids.zip (ss.zip os)).map Prod.fst := by rw [hfst]; exact hk
    obtain ⟨i, hi, hki, hlater, hfind⟩ := lastFind_spec (ids.zip (ss.zip os)) k hk'
    have hi1 : i < ids.length := hplen ▸ hi
    have hi2 : i < ss.length := by omega
    have hi3 : i < os.length := by omega
    have hget : (ids.zip (ss.zip os)).get ⟨i, hi⟩
        = (ids.get ⟨i, hi1⟩, (ss.get ⟨i, hi2⟩, os.get ⟨i, hi3⟩)) :=
      get_zip3 ids ss os i hi hi1 hi2 hi3
    refine ⟨i, hi1, ?_, ?_, ?_⟩
    · rw [hget] at hki; exact hki
    · intro j hj hij
      have hj' : j < (ids.zip (ss.zip os)).length := hplen.symm ▸ hj
      have hj2 : j < ss.length := by omega
      have hj3 : j < os.length := by omega
      have := hlater j hj' hij
      rw [get_zip3 ids ss os j hj' hj hj2 hj3] at this
      exact this
    · refine ⟨ss.get ⟨i, hi2⟩, ?_, os.get ⟨i, hi3⟩, ?_, ?_⟩
      · simp [List.getElem?_eq_getElem hi2, List.get_eq_getElem]
      · simp [List.getElem?_eq_getElem hi3, List.get_eq_getElem]
      · show dictLookup ((ids.zip (ss.zip os)).foldl
            (fun d p => dictInsert d p.1 p.2) []) k = _
        rw [dictLookup_foldl, hfind, hget]

/-- C1 witness: a concrete run of `claim1_construction` on a
three-entry input with a duplicated identifier. -/
theorem claim1_witness :
    ∃ lib : StructureLibrary String Nat OrientationSet,
      StructureLibrary.init ["a", "a", "b"] [1, 2, 3]
          [OrientationSet.many [], OrientationSet.many [⟨1, 1, 1⟩],
           OrientationSet.flat ⟨0, 0, 0⟩]
        = Except.ok lib
      ∧ lib.struct_lib.length = (["a", "a", "b"] : List String).toFinset.card := by
  obtain ⟨lib, hok, -, -, -, -, -, hcard, -⟩ :=
    claim1_construction (σ := Nat) ["a", "a", "b"] [1, 2, 3]
      [OrientationSet.many [], OrientationSet.many [⟨1, 1, 1⟩],
       OrientationSet.flat ⟨0, 0, 0⟩] rfl rfl
  exact ⟨lib, hok, hcard⟩

/-- C2: construction fails exactly when the input lengths disagree; an
identifiers-vs-structures mismatch raises the first error with the two
compared counts, and when identifiers/structures agree the
identifiers-vs-orientations check still runs and raises its own error with
its two counts. In the `Except` model an error result carries no library
value, which is the atomicity of failure. -/
theorem claim2_length_mismatch_errors {ι σ ω : Type} [DecidableEq ι]
    (ids : List ι) (ss : List σ) (os : List ω) :
    (ids.length ≠ ss.length →
      StructureLibrary.init ids ss os
        = Except.error (LibError.idStructMismatch ids.length ss.length))
    ∧ (ids.length = ss.length → ids.length ≠ os.length →
      StructureLibrary.init ids ss os
        = Except.error (LibError.idOriMismatch ids.length os.length))
    ∧ ((∃ e, StructureLibrary.init ids ss os = Except.error e)
        ↔ ids.length ≠ ss.length ∨ ids.length ≠ os.length) := by
  refine ⟨?_, ?_, ?_, ?_⟩
  · intro h
    unfold StructureLibrary.init
    rw [if_pos h]
  · intro h1 h2
    unfold StructureLibrary.init
    rw [if_neg (fun hc => hc h1), if_pos h2]
  · rintro ⟨e, he⟩
    by_cases hA : ids.length ≠ ss.length
    · exact Or.inl hA
    by_cases hB : ids.length ≠ os.length
    · exact Or.inr hB
    · exfalso
      unfold StructureLibrary.init at he
      rw [if_neg hA, if_neg hB] at he
      exact Except.noConfusion he
  · rintro (h | h)
    · exact ⟨_, by unfold StructureLibrary.init; rw [if_pos h]⟩
    · by_cases hA : ids.length ≠ ss.length
      · exact ⟨_, by unfold StructureLibrary.init; rw [if_pos hA]⟩
      · exact ⟨_, by unfold StructureLibrary.init; rw [if_neg hA, if_pos h]⟩

/-- C2 witness: one identifier against zero structures raises the
identifiers-vs-structures error carrying the counts 1 and 0. -/
theorem claim2_witness :
    StructureLibrary.init ["a"] ([] : List Nat) ([] : List OrientationSet)
      = Except.error (LibError.idStructMismatch 1 0) :=
  (claim2_length_mismatch_errors ["a"] [] []).1 (by decide)

/-- C3: `get_library_size` returns the sum over positions of a per-entry
count that is 1 when the raw length is 1 and the raw length otherwise; on
the spec's example (a one-element list holding one flat tuple for "a" and a
two-element list for "b") it returns 3. -/
theorem claim3_size_algorithm :
    (∀ (ι σ : Type) (lib : StructureLibrary ι σ OrientationSet) (tp : Bool),
      (getLibrarySize lib tp).1
        = (lib.orientations.map fun o => if pyLen o = 1 then 1 else pyLen o).sum)
    ∧ (∃ lib : StructureLibrary String Nat OrientationSet,
        StructureLibrary.init ["a", "b"] [1, 2]
            [OrientationSet.many [⟨10, 10, 10⟩],
             OrientationSet.many [⟨0, 0, 0⟩, ⟨1, 1, 1⟩]]
          = Except.ok lib
        ∧ (getLibrarySize lib false).1 = 3) := by
  constructor
  · intro ι σ lib tp
    exact getLibrarySize_fst_eq_sum lib tp
  · exact ⟨_, rfl, rfl⟩

/-- C4 counterexample: in a library whose single entry is stored as a bare
3-tuple, `get_library_size` returns 3, not 1: the `len == 1` special case
does not fire on a flat tuple (its Python `len` is 3). -/
def flatLib : StructureLibrary String Nat OrientationSet :=
  { identifiers := ["a"]
    structures := [7]
    orientations := [OrientationSet.flat ⟨10, 10, 10⟩]
    struct_lib := [("a", (7, OrientationSet.flat ⟨10, 10, 10⟩))] }

/-- C4: refuted as stated: the library `flatLib` stores its only entry as a
bare 3-tuple, yet `get_library_size` counts it as 3 entries, not 1. -/
theorem claim4_counterexample :
    StructureLibrary.init ["a"] [7] [OrientationSet.flat ⟨10, 10, 10⟩]
      = Except.ok flatLib
    ∧ (getLibrarySize flatLib false).1 = 3
    ∧ (getLibrarySize flatLib false).1 ≠ 1 :=
  ⟨rfl, rfl, by decide⟩

/-- C4 amended: an entry stored as a bare 3-tuple counts as exactly 3 (its
raw Python length) toward the returned total, not 1; every position
contributes its `entryCount` to the total. -/
theorem claim4_amended {ι σ : Type} (lib : StructureLibrary ι σ OrientationSet)
    (tp : Bool) (i : Nat) (o : Orientation)
    (hi : i < lib.orientations.length)
    (h : lib.orientations.getD i (OrientationSet.many [])
      = OrientationSet.flat o) :
    entryCount lib i = 3
    ∧ (getLibrarySize lib tp).1
        = ((List.range lib.orientations.length).map (entryCount lib)).sum
    ∧ i ∈ List.range lib.orientations.length := by
  refine ⟨?_, getLibrarySize_fst lib tp, List.mem_range.mpr hi⟩
  unfold entryCount
  rw [h]
  simp [pyLen]

/-- C4 amended witness: the flat-tuple entry of `flatLib` contributes 3. -/
theorem claim4_witness :
    entryCount flatLib 0 = 3
    ∧ (getLibrarySize flatLib false).1
        = ((List.range flatLib.orientations.length).map (entryCount flatLib)).sum
    ∧ 0 ∈ List.range flatLib.orientations.length :=
  claim4_amended flatLib false 0 ⟨10, 10, 10⟩ (by decide) (by decide)

/-- C5: duplicate identifiers are accepted; the mapping keeps the pair of
the last position carrying the identifier while the stored `identifiers`
sequence keeps its full length. -/
theorem claim5_duplicate_identifiers :
    ∃ lib : StructureLibrary String Nat OrientationSet,
      StructureLibrary.init ["a", "a"] [1, 2]
          [OrientationSet.many [⟨0, 0, 0⟩], OrientationSet.many [⟨1, 1, 1⟩]]
        = Except.ok lib
      ∧ dictLookup lib.struct_lib "a" = some (2, OrientationSet.many [⟨1, 1, 1⟩])
      ∧ lib.identifiers.length = 2 :=
  ⟨_, rfl, by decide, rfl⟩

/-- C6: `from_orientation_lists` is a pure pass-through: it returns exactly
what the direct constructor returns (the same library on success, the same
error on failure). -/
theorem claim6_from_orientation_lists_passthrough {ι σ ω : Type}
    [DecidableEq ι] (ids : List ι) (ss : List σ) (os : List ω) :
    StructureLibrary.from_orientation_lists ids ss os
      = StructureLibrary.init ids ss os := rfl

/-- C7: `from_crystal_systems` maps the generator over `systems` in order
with `(system, resolution, equal)` unchanged and delegates to the direct
constructor; instantiating the generator with the pair constructor exhibits
the exact argument list of the calls, and the stub generator yields
`[[(0,0,0)]] * N` as the orientations of the resulting library. -/
theorem claim7_from_crystal_systems {ι σ γ ρ ω : Type} [DecidableEq ι] :
    (∀ (gen : γ → ρ → String → ω) (ids : List ι) (ss : List σ)
        (systems : List γ) (res : ρ) (equal : String),
      StructureLibrary.from_crystal_systems gen ids ss systems res equal
        = StructureLibrary.init ids ss (systems.map fun s => gen s res equal))
    ∧ (∀ (ids : List ι) (ss : List σ) (systems : List γ) (res : ρ)
        (equal : String),
      StructureLibrary.from_crystal_systems (fun s r e => (s, r, e))
          ids ss systems res equal
        = StructureLibrary.init ids ss (systems.map fun s => (s, res, equal)))
    ∧ (∀ (ids : List ι) (ss : List σ) (systems : List γ) (res : ρ)
        (equal : String),
      ids.length = ss.length → systems.length = ids.length →
      ∃ lib : StructureLibrary ι σ OrientationSet,
        StructureLibrary.from_crystal_systems
            (fun _ _ _ => OrientationSet.many [⟨0, 0, 0⟩])
            ids ss systems res equal
          = Except.ok lib
        ∧ lib.orientations
            = List.replicate ids.length (OrientationSet.many [⟨0, 0, 0⟩])) := by
  have hmain : ∀ (ω' : Type) (gen : γ → ρ → String → ω') (ids : List ι)
      (ss : List σ) (systems : List γ) (res : ρ) (equal : String),
      StructureLibrary.from_crystal_systems gen ids ss systems res equal
        = StructureLibrary.init ids ss (systems.map fun s => gen s res equal) := by
    intro ω' gen ids ss systems res equal
    unfold StructureLibrary.from_crystal_systems
    rw [foldl_append_singleton]
    rfl
  refine ⟨hmain ω, fun ids ss systems res equal =>
    hmain _ (fun s r e => (s, r, e)) ids ss systems res equal, ?_⟩
  intro ids ss systems res equal h1 h2
  have hrep : (systems.map fun _ => OrientationSet.many [⟨0, 0, 0⟩])
      = List.replicate ids.length (OrientationSet.many [⟨0, 0, 0⟩]) := by
    rw [List.map_const']
    rw [h2]
  rw [hmain _ _ ids ss systems res equal, hrep]
  exact ⟨_, init_ok ids ss _ h1 (by simp [h2]), rfl⟩

/-- C7 witness: the stub generator on a one-system input produces a library
whose orientations are `[[(0,0,0)]]`. -/
theorem claim7_witness :
    ∃ lib : StructureLibrary String Nat OrientationSet,
      StructureLibrary.from_crystal_systems
          (fun (_ : String) (_ : Int) (_ : String) =>
            OrientationSet.many [⟨0, 0, 0⟩])
          ["a"] [1] ["cubic"] 5 "angle"
        = Except.ok lib
      ∧ lib.orientations
          = List.replicate 1 (OrientationSet.many [⟨0, 0, 0⟩]) :=
  (claim7_from_crystal_systems (ω := OrientationSet)).2.2
    ["a"] [1] ["cubic"] 5 "angle" rfl rfl

/-- C8: `from_crystal_systems` performs no local check that `systems`
matches `identifiers` in length: every system is still mapped through the
generator (the loop equals the full map over `systems`), and the call fails
with the constructor's identifiers-vs-orientations error. -/
theorem claim8_no_local_systems_check {ι σ γ ρ ω : Type} [DecidableEq ι]
    (gen : γ → ρ → String → ω) (ids : List ι) (ss : List σ)
    (systems : List γ) (res : ρ) (equal : String)
    (h1 : ids.length = ss.length) (h2 : systems.length ≠ ids.length) :
    StructureLibrary.from_crystal_systems gen ids ss systems res equal
      = Except.error (LibError.idOriMismatch ids.length systems.length)
    ∧ systems.foldl (fun acc s => acc ++ [gen s res equal]) []
        = systems.map fun s => gen s res equal := by
  have hfold := foldl_append_singleton (fun s => gen s res equal) systems []
  refine ⟨?_, by simpa using hfold⟩
  unfold StructureLibrary.from_crystal_systems
  rw [show (systems.foldl (fun acc system => acc ++ [gen system res equal]) [])
      = systems.map fun s => gen s res equal from by simpa using hfold]
  unfold StructureLibrary.init
  rw [if_neg (fun hc => hc h1),
    if_pos (by rw [List.length_map]; omega)]
  rw [List.length_map]

/-- C8 witness: two identifiers with a single system fail with the
identifiers-vs-orientations error carrying the counts 2 and 1. -/
theorem claim8_witness :
    StructureLibrary.from_crystal_systems
        (fun (_ : String) (_ : Int) (_ : String) =>
          OrientationSet.many [⟨0, 0, 0⟩])
        ["a", "b"] [1, 2] ["cubic"] 5 "angle"
      = Except.error (LibError.idOriMismatch 2 1) :=
  (claim8_no_local_systems_check _ ["a", "b"] [1, 2] ["cubic"] 5 "angle"
    (by decide) (by decide)).1

/-- C9: the integer returned by `get_library_size` is the same for
`to_print = True` and `to_print = False`; the flag only changes the emitted
report (the functions are pure, so no state can change). -/
theorem claim9_print_flag_no_influence :
    ∀ (ι σ : Type) (lib : StructureLibrary ι σ OrientationSet),
      (getLibrarySize lib true).1 = (getLibrarySize lib false).1 := by
  intro ι σ lib
  rw [getLibrarySize_fst, getLibrarySize_fst]

/-- C10: the `len == 1` special case is vacuous: the returned total always
equals the plain sum of raw lengths (`getLibrarySizePlain`, written from
the spec's branch-free description), so a bare 3-tuple contributes 3 and an
empty orientation-set contributes 0. -/
theorem claim10_branch_vacuous :
    (∀ (ι σ : Type) (lib : StructureLibrary ι σ OrientationSet) (tp : Bool),
      (getLibrarySize lib tp).1 = getLibrarySizePlain lib)
    ∧ (∀ o : Orientation, pyLen (OrientationSet.flat o) = 3)
    ∧ pyLen (OrientationSet.many []) = 0 := by
  refine ⟨?_, fun o => rfl, rfl⟩
  intro ι σ lib tp
  rw [getLibrarySize_fst_eq_sum]
  unfold getLibrarySizePlain
  congr 1
  apply List.map_congr_left
  intro o ho
  by_cases h : pyLen o = 1
  · rw [if_pos h, h]
  · rw [if_neg h]

end Diffsims
